import Mathlib

/-!
# nats-http-connector: a message-to-HTTP bridge

A shallow embedding of `nats-http-connector/main.go`.

The connector subscribes to one subject of a NATS bus, forwards every message it
receives to an HTTP endpoint through `common.HandleHTTPRequest`, and publishes the
response body (or the text of the failure) back to the bus.

Everything the Go code does to the outside world (log lines, the call of the HTTP
helper, reads of the response body, bus calls) is recorded as an `Event`; a Go
function becomes a `Run`: the events it produces, in order, and the way it ends
(it returns, it ends the process through a fatal log call, or it blocks for ever).
The answers of the outside world (what the HTTP helper returns, whether a publish
fails, what the environment holds) are arguments of the embedded functions.
-/

namespace NatsHttpConnector

/-! ## Go values -/

/-- A Go `string`: an immutable sequence of bytes, not necessarily valid UTF-8. -/
structure GoString where
  bytes : List UInt8
deriving DecidableEq, Repr

/-- A Go `[]byte`, the type of message payloads and of response bodies. -/
abbrev ByteSlice := List UInt8

/-- The Go string denoted by a string literal of the source: its UTF-8 bytes. -/
def GoString.lit (s : String) : GoString :=
  ⟨s.data.flatMap String.utf8EncodeChar⟩

/-- The conversion `string(b)` of a byte slice: the same bytes. -/
def GoString.ofBytes (b : ByteSlice) : GoString :=
  ⟨b⟩

/-- The conversion `[]byte(s)` of a string: the same bytes. -/
def GoString.toBytes (s : GoString) : ByteSlice :=
  s.bytes

/-- The builtin `len(s)`: the number of bytes of the string. -/
def GoString.len (s : GoString) : Nat :=
  s.bytes.length

/-- Concatenation of Go strings. -/
def GoString.append (s t : GoString) : GoString :=
  ⟨s.bytes ++ t.bytes⟩

/-- A non-nil Go `error`; `Error` is the result of its method `Error()`. -/
structure GoError where
  Error : GoString
deriving DecidableEq, Repr

/-- The type `http.Header`, a map from header names to lists of values, kept as
the association list of its entries. -/
abbrev Header := List (GoString × List GoString)

/-- The names of a header map. -/
def Header.keys (h : Header) : List GoString :=
  h.map Prod.fst

/-- The map access `h[k]`: the values stored under `k`, none when `k` is absent. -/
def Header.values (h : Header) (k : GoString) : List GoString :=
  match h.lookup k with
  | some vs => vs
  | none => []

/-- Modelled from the spec: the record `common.ConnectorMetadata`, whose declaration
lives in package `common` and is not part of the sources at hand. It has the
fields that `main.go` reads, named as `main.go` names them; the spec calls it
ConnectorConfig (topic, responseTopic, errorTopic, contentType, sourceName,
httpEndpoint). -/
structure ConnectorMetadata where
  Topic : GoString
  ResponseTopic : GoString
  ErrorTopic : GoString
  ContentType : GoString
  SourceName : GoString
  HTTPEndpoint : GoString
deriving DecidableEq, Repr

/-- The body of an HTTP response as `ioutil.ReadAll` sees it: the bytes it yields
and the error the read ends with, if any. -/
structure Body where
  data : ByteSlice
  err : Option GoError
deriving DecidableEq, Repr

/-- The call `ioutil.ReadAll(body)`: the bytes read and the read error. -/
def ReadAll (b : Body) : ByteSlice × Option GoError :=
  (b.data, b.err)

/-- The parts of an `http.Response` within reach of the connector. -/
structure Response where
  StatusCode : Int
  Body : Body
deriving DecidableEq, Repr

/-- A message delivered by the bus (`nats.Msg`). -/
structure Msg where
  Subject : GoString
  Reply : GoString
  Data : ByteSlice
deriving DecidableEq, Repr

/-- The handle of an established bus connection (`*nats.Conn`). -/
structure Conn where
  url : GoString
deriving DecidableEq, Repr

/-- The handle of the logger (`*zap.Logger`). -/
inductive Logger where
  | production
deriving DecidableEq, Repr

/-- The struct `natsConnector` of `main.go`. -/
structure natsConnector where
  host : GoString
  connectordata : ConnectorMetadata
  connection : Conn
  logger : Logger
deriving DecidableEq, Repr

/-! ## Events and runs -/

/-- What the connector does to the outside world. Log events carry the message
of the log call; the structured zap fields are not recorded. -/
inductive Event where
  /-- The call `logger.Info(msg)`. -/
  | logInfo (msg : GoString)
  /-- The call `logger.Error(msg, ...)`. -/
  | logError (msg : GoString)
  /-- The line written by `logger.Fatal(msg, ...)` or `log.Fatalf` before the exit. -/
  | logFatal (msg : GoString)
  /-- The call `common.HandleHTTPRequest(message, headers, data, logger)`. -/
  | httpRequest (message : GoString) (headers : Header) (data : ConnectorMetadata)
  /-- The call `ioutil.ReadAll(resp.Body)`. -/
  | readAll
  /-- The deferred `resp.Body.Close()`. -/
  | bodyClose
  /-- The call `nats.Connect(url)`. -/
  | connect (url : GoString)
  /-- The call `connection.Subscribe(subject, handler)`. -/
  | subscribe (subject : GoString)
  /-- The call `connection.Publish(subject, data)`. -/
  | publish (subject : GoString) (data : ByteSlice)
  /-- The deferred `connection.Close()`. -/
  | connClose
  /-- The deferred `logger.Sync()`. -/
  | loggerSync
deriving DecidableEq, Repr

/-- How a Go function ends. -/
inductive Result (α : Type) where
  /-- It returns the value `a` to its caller. -/
  | returned (a : α)
  /-- It ends the process (`os.Exit(1)`) after the fatal log line `msg`. -/
  | exited (msg : GoString)
  /-- It blocks for ever (a receive on a channel nobody sends to). -/
  | blocked
deriving DecidableEq, Repr

/-- The run of a Go function: its events in order and the way it ends. -/
structure Run (α : Type) where
  events : List Event
  result : Result α

/-- A run that does nothing and returns `a`. -/
def Run.ret {α : Type} (a : α) : Run α :=
  ⟨[], .returned a⟩

/-- Sequencing: the second part runs only when the first one returns. -/
def Run.andThen {α β : Type} (r : Run α) (f : α → Run β) : Run β :=
  match r.result with
  | .returned a => ⟨r.events ++ (f a).events, (f a).result⟩
  | .exited msg => ⟨r.events, .exited msg⟩
  | .blocked => ⟨r.events, .blocked⟩

instance : Monad Run where
  pure := Run.ret
  bind := Run.andThen

/-- A single event, after which the run goes on. -/
def emit (e : Event) : Run Unit :=
  ⟨[e], .returned ()⟩

/-- The calls `logger.Fatal(msg, ...)` and `log.Fatalf`: the line is logged and the
process exits; deferred calls do not run. -/
def Fatal (msg : GoString) : Run Unit :=
  ⟨[.logFatal msg], .exited msg⟩

/-- The receive `<-forever` on a channel that has no sender. -/
def blockForever : Run Unit :=
  ⟨[], .blocked⟩

/-- The publishes of a trace, as pairs of subject and payload, in order. -/
def publishes : List Event → List (GoString × ByteSlice)
  | [] => []
  | .publish s d :: es => (s, d) :: publishes es
  | _ :: es => publishes es

/-- The calls of the HTTP helper in a trace, with their arguments, in order. -/
def httpRequests : List Event → List (GoString × Header × ConnectorMetadata)
  | [] => []
  | .httpRequest m h d :: es => (m, h, d) :: httpRequests es
  | _ :: es => httpRequests es

/-- The subjects of the subscriptions of a trace, in order. -/
def subscriptions : List Event → List GoString
  | [] => []
  | .subscribe s :: es => s :: subscriptions es
  | _ :: es => subscriptions es

/-- The targets of the connection attempts of a trace, in order. -/
def connections : List Event → List GoString
  | [] => []
  | .connect u :: es => u :: connections es
  | _ :: es => connections es

/-! ## The connector -/

/-- The answers of the outside world while one message is handled.

`HandleHTTPRequest` is the helper of package `common` (not part of the sources at
hand): given the message, the headers and the metadata it answers with a response
or with an error. `Publish` is `nats.Conn.Publish`: `none` when the publish
succeeds, the error otherwise. -/
structure World where
  HandleHTTPRequest : GoString → Header → ConnectorMetadata → Except GoError Response
  Publish : GoString → ByteSlice → Option GoError

/-- The header map built at the start of `consumeMessage` (main.go, lines 24-30). -/
def headers (conn : natsConnector) : Header :=
  [ (GoString.lit "Topic", [conn.connectordata.Topic]),
    (GoString.lit "RespTopic", [conn.connectordata.ResponseTopic]),
    (GoString.lit "ErrorTopic", [conn.connectordata.ErrorTopic]),
    (GoString.lit "Content-Type", [conn.connectordata.ContentType]),
    (GoString.lit "Source-Name", [conn.connectordata.SourceName]) ]

/-- The method `errorHandler` (main.go, lines 59-70). -/
def errorHandler (conn : natsConnector) (w : World) (err : GoError) : Run Unit := do
  emit (.publish conn.connectordata.ErrorTopic (GoString.toBytes err.Error))
  match w.Publish conn.connectordata.ErrorTopic (GoString.toBytes err.Error) with
  | some _ => emit (.logError (GoString.lit "failed to publish message to error topic"))
  | none => pure ()

/-- The method `responseHandler` (main.go, lines 72-89). -/
def responseHandler (conn : natsConnector) (w : World) (response : GoString) : Run Bool := do
  if GoString.len conn.connectordata.ResponseTopic > 0 then
    emit (.publish conn.connectordata.ResponseTopic (GoString.toBytes response))
    match w.Publish conn.connectordata.ResponseTopic (GoString.toBytes response) with
    | some _ =>
      emit (.logError (GoString.lit "failed to publish response body from http request to topic"))
      pure false
    | none => pure true
  else
    pure true

/-- The function handed to `Subscribe` in `consumeMessage` (main.go, lines 33-49):
what the connector does with one message `m`. -/
def subscriptionHandler (conn : natsConnector) (w : World) (m : Msg) : Run Unit := do
  let msg := GoString.ofBytes m.Data
  emit (.logInfo msg)
  emit (.httpRequest msg (headers conn) conn.connectordata)
  match w.HandleHTTPRequest msg (headers conn) conn.connectordata with
  | .error err => errorHandler conn w err
  | .ok resp =>
    emit .readAll
    match ReadAll resp.Body with
    | (_, some err) => errorHandler conn w err
    | (body, none) =>
      let _success ← responseHandler conn w (GoString.ofBytes body)
      pure ()
    emit .bodyClose

/-- The method `consumeMessage` (main.go, lines 22-57). `Subscribe` is the answer
of `connection.Subscribe` for a subject: `none` when the handler is registered,
the error otherwise. -/
def consumeMessage (conn : natsConnector) (Subscribe : GoString → Option GoError) :
    Run Unit := do
  emit (.subscribe conn.connectordata.Topic)
  match Subscribe conn.connectordata.Topic with
  | some _ => Fatal (GoString.lit "error occurred while consuming message")
  | none => pure ()
  emit (.logInfo (GoString.lit "NATs consumer up and running!..."))
  blockForever

/-- The answers of the outside world during startup.

`NewProduction` is the error of `zap.NewProduction()`, `ParseConnectorMetadata` the
two results of `common.ParseConnectorMetadata()` (a helper of package `common`, not
part of the sources at hand), `Getenv` is `os.Getenv`, `Connect` is
`nats.Connect`, and `Subscribe` is as in `consumeMessage`. -/
structure Startup where
  NewProduction : Option GoError
  ParseConnectorMetadata : ConnectorMetadata × Option GoError
  Getenv : GoString → GoString
  Connect : GoString → Except GoError Conn
  Subscribe : GoString → Option GoError

/-- The function `main` (main.go, lines 91-122). The error of
`common.ParseConnectorMetadata()` is bound to `err` and overwritten by the result
of `nats.Connect` without having been read. -/
def main (e : Startup) : Run Unit := do
  match e.NewProduction with
  | some err =>
    Fatal (GoString.append (GoString.lit "can\x27t initialize zap logger: ") err.Error)
  | none => pure ()
  let logger := Logger.production
  let (connectordata, _err) := e.ParseConnectorMetadata
  let host := e.Getenv (GoString.lit "HOST")
  if e.Getenv (GoString.lit "INCLUDE_UNACKED") = GoString.lit "true" then
    Fatal (GoString.lit "only nats protocol host is supported")
  if host = GoString.lit "" then
    Fatal (GoString.lit "received empty host field")
  emit (.connect host)
  match e.Connect host with
  | .error _ => Fatal (GoString.lit "failed to establish connection with NATS")
  | .ok connection =>
    let conn : natsConnector :=
      ⟨host, connectordata, connection, logger⟩
    consumeMessage conn e.Subscribe
    emit .connClose
    emit .loggerSync

/-! ## The handler as a step on the variables it shares -/

/-- The variables of `consumeMessage` that the function handed to `Subscribe`
refers to (main.go, lines 33-49): the receiver `conn` and the map `headers`. The
function holds them by reference, so they are the state that one call of it
could change for the next call. -/
structure Captured where
  conn : natsConnector
  headers : Header
deriving DecidableEq, Repr

/-- The captured variables as `consumeMessage` sets them before it subscribes
(main.go, lines 22-30). -/
def captured (conn : natsConnector) : Captured :=
  ⟨conn, headers conn⟩

/-- One call of the function handed to `Subscribe` (main.go, lines 33-49) in
state-passing form: the run of the call on the captured variables `c`, returning
the captured variables as the call leaves them. The body reads `conn` and
`headers` and has no assignment to either; `errorHandler` and `responseHandler`
have value receivers and get a copy of `conn`; the HTTP helper, as `World` types
it, does not write to the header map. -/
def subscriptionHandlerStep (c : Captured) (w : World) (m : Msg) : Run Captured := do
  let msg := GoString.ofBytes m.Data
  emit (.logInfo msg)
  emit (.httpRequest msg c.headers c.conn.connectordata)
  match w.HandleHTTPRequest msg c.headers c.conn.connectordata with
  | .error err => errorHandler c.conn w err
  | .ok resp =>
    emit .readAll
    match ReadAll resp.Body with
    | (_, some err) => errorHandler c.conn w err
    | (body, none) =>
      let _success ← responseHandler c.conn w (GoString.ofBytes body)
      pure ()
    emit .bodyClose
  pure c

/-- Modelled from the spec: the delivery of messages to the registered handler,
which is done by the bus client (package `nats`, not part of the sources at hand).
It is the single-threaded sequential delivery of section 5 of the spec: the
handler is called once for each message, one call after the other, each call on
the captured variables as the call before left them. Every message comes with
the answers of the outside world for its own handling. A call that ends the
process ends the delivery (`Run.andThen`). -/
def deliverAll (c : Captured) : List (Msg × World) → Run Captured
  | [] => pure c
  | d :: ds => do
    let c2 ← subscriptionHandlerStep c d.2 d.1
    deliverAll c2 ds

/-! ## Outcomes of forwarding, and example inputs -/

/-- The outcome of the two fallible steps of the subscription handler (main.go,
lines 36 and 41): the error of `common.HandleHTTPRequest` or else the error of
`ioutil.ReadAll`, and when neither fails the bytes of the response body. -/
def forwardOutcome (conn : natsConnector) (w : World) (m : Msg) : Except GoError ByteSlice :=
  match w.HandleHTTPRequest (GoString.ofBytes m.Data) (headers conn) conn.connectordata with
  | .error err => .error err
  | .ok resp =>
    match ReadAll resp.Body with
    | (_, some err) => .error err
    | (body, none) => .ok body

/-- The same world, with the status code of every response replaced by `code`. -/
def World.withStatus (w : World) (code : Int) : World :=
  ⟨fun msg h d =>
      match w.HandleHTTPRequest msg h d with
      | .error err => .error err
      | .ok resp => .ok ⟨code, resp.Body⟩,
    w.Publish⟩

/-- The same startup, with `err` as the error result of
`common.ParseConnectorMetadata()`. -/
def Startup.withMetadataError (e : Startup) (err : Option GoError) : Startup :=
  ⟨e.NewProduction, (e.ParseConnectorMetadata.1, err), e.Getenv, e.Connect, e.Subscribe⟩

/-- An example configuration: subject `events`, responses to `acks`, errors to `errs`. -/
def exampleConfig : ConnectorMetadata :=
  ⟨.lit "events", .lit "acks", .lit "errs", .lit "text/plain", .lit "example",
    .lit "http://localhost:8080/hook"⟩

/-- The example configuration without a response topic. -/
def exampleConfigNoResponse : ConnectorMetadata :=
  ⟨.lit "events", .lit "", .lit "errs", .lit "text/plain", .lit "example",
    .lit "http://localhost:8080/hook"⟩

/-- A connector with the example configuration. -/
def exampleConn : natsConnector :=
  ⟨.lit "nats://localhost:4222", exampleConfig, ⟨.lit "nats://localhost:4222"⟩, .production⟩

/-- A connector without a response topic. -/
def exampleConnNoResponse : natsConnector :=
  ⟨.lit "nats://localhost:4222", exampleConfigNoResponse, ⟨.lit "nats://localhost:4222"⟩,
    .production⟩

/-- The message `hello` on subject `events`. -/
def exampleMsg : Msg :=
  ⟨.lit "events", .lit "", (GoString.lit "hello").bytes⟩

/-- The message `x` on subject `events`. -/
def exampleMsgX : Msg :=
  ⟨.lit "events", .lit "", (GoString.lit "x").bytes⟩

/-- The endpoint answers 200 with body `ack`; publishes succeed. -/
def worldAck : World :=
  ⟨fun _ _ _ => .ok ⟨200, ⟨(GoString.lit "ack").bytes, none⟩⟩, fun _ _ => none⟩

/-- The endpoint answers 404 with body `not found`; publishes succeed. -/
def worldNotFound : World :=
  ⟨fun _ _ _ => .ok ⟨404, ⟨(GoString.lit "not found").bytes, none⟩⟩, fun _ _ => none⟩

/-- The endpoint refuses the connection; publishes succeed. -/
def worldRefused : World :=
  ⟨fun _ _ _ => .error ⟨.lit "dial tcp 127.0.0.1:8080: connect: connection refused"⟩,
    fun _ _ => none⟩

/-- The endpoint answers 200 but the body cannot be read to its end; publishes
succeed. -/
def worldReadFails : World :=
  ⟨fun _ _ _ => .ok ⟨200, ⟨(GoString.lit "ac").bytes, some ⟨.lit "unexpected EOF"⟩⟩⟩,
    fun _ _ => none⟩

/-- The endpoint answers 200 with body `ack`; every publish fails. -/
def worldAckPublishFails : World :=
  ⟨fun _ _ _ => .ok ⟨200, ⟨(GoString.lit "ack").bytes, none⟩⟩,
    fun _ _ => some ⟨.lit "nats: connection closed"⟩⟩

/-- The endpoint refuses the connection; every publish fails. -/
def worldRefusedPublishFails : World :=
  ⟨fun _ _ _ => .error ⟨.lit "dial tcp 127.0.0.1:8080: connect: connection refused"⟩,
    fun _ _ => some ⟨.lit "nats: connection closed"⟩⟩

/-- An environment that holds `host` under `HOST`, `unacked` under
`INCLUDE_UNACKED`, and nothing else. -/
def exampleGetenv (host unacked : GoString) (k : GoString) : GoString :=
  if k = GoString.lit "HOST" then host
  else if k = GoString.lit "INCLUDE_UNACKED" then unacked
  else GoString.lit ""

/-- The answer of the bus to a subscription: the empty subject is refused. -/
def exampleSubscribe (subject : GoString) : Option GoError :=
  if subject = GoString.lit "" then some ⟨.lit "nats: invalid subject"⟩ else none

/-- A startup in which everything succeeds. -/
def startupOk : Startup :=
  ⟨none, (exampleConfig, none), exampleGetenv (.lit "nats://localhost:4222") (.lit ""),
    fun url => .ok ⟨url⟩, exampleSubscribe⟩

/-- A startup without `HOST`. -/
def startupNoHost : Startup :=
  ⟨none, (exampleConfig, none), exampleGetenv (.lit "") (.lit ""),
    fun url => .ok ⟨url⟩, exampleSubscribe⟩

/-- A startup with `HOST` set and `INCLUDE_UNACKED` set to `true`. -/
def startupUnacked : Startup :=
  ⟨none, (exampleConfig, none), exampleGetenv (.lit "nats://localhost:4222") (.lit "true"),
    fun url => .ok ⟨url⟩, exampleSubscribe⟩

/-- A startup in which `TOPIC` is not set: `common.ParseConnectorMetadata()` gives
the zero metadata and an error, while `HOST` is set and the bus can be reached. -/
def startupMetadataError : Startup :=
  ⟨none,
    (⟨.lit "", .lit "", .lit "", .lit "", .lit "", .lit ""⟩,
      some ⟨.lit "environment variable not found: TOPIC"⟩),
    exampleGetenv (.lit "nats://localhost:4222") (.lit ""),
    fun url => .ok ⟨url⟩, exampleSubscribe⟩

/-- Two deliveries: the message `x`, whose forwarding is refused and whose error
publish fails, and then the message `hello`, answered with `ack`. -/
def exampleDeliveries : List (Msg × World) :=
  [(exampleMsgX, worldRefusedPublishFails), (exampleMsg, worldAck)]

/-! # Theorems -/

/-! ## Traces -/

theorem publishes_append (xs ys : List Event) :
    publishes (xs ++ ys) = publishes xs ++ publishes ys := by
  induction xs with
  | nil => rfl
  | cons x xs ih => cases x <;> simp [publishes, ih]

theorem httpRequests_append (xs ys : List Event) :
    httpRequests (xs ++ ys) = httpRequests xs ++ httpRequests ys := by
  induction xs with
  | nil => rfl
  | cons x xs ih => cases x <;> simp [httpRequests, ih]

/-! ## The two result handlers -/

theorem errorHandler_events (conn : natsConnector) (w : World) (err : GoError) :
    (errorHandler conn w err).events =
      .publish conn.connectordata.ErrorTopic (GoString.toBytes err.Error) ::
        (match w.Publish conn.connectordata.ErrorTopic (GoString.toBytes err.Error) with
         | some _ => [.logError (GoString.lit "failed to publish message to error topic")]
         | none => []) := by
  unfold errorHandler
  cases w.Publish conn.connectordata.ErrorTopic (GoString.toBytes err.Error) <;> rfl

theorem errorHandler_result (conn : natsConnector) (w : World) (err : GoError) :
    (errorHandler conn w err).result = .returned () := by
  unfold errorHandler
  cases w.Publish conn.connectordata.ErrorTopic (GoString.toBytes err.Error) <;> rfl

theorem responseHandler_events (conn : natsConnector) (w : World) (response : GoString) :
    (responseHandler conn w response).events =
      if GoString.len conn.connectordata.ResponseTopic > 0 then
        .publish conn.connectordata.ResponseTopic (GoString.toBytes response) ::
          (match w.Publish conn.connectordata.ResponseTopic (GoString.toBytes response) with
           | some _ =>
             [.logError (GoString.lit "failed to publish response body from http request to topic")]
           | none => [])
      else [] := by
  unfold responseHandler
  by_cases h : GoString.len conn.connectordata.ResponseTopic > 0
  · simp only [h, if_true]
    cases w.Publish conn.connectordata.ResponseTopic (GoString.toBytes response) <;> rfl
  · simp only [h, if_false]
    rfl

theorem responseHandler_result (conn : natsConnector) (w : World) (response : GoString) :
    ∃ b, (responseHandler conn w response).result = .returned b := by
  unfold responseHandler
  by_cases h : GoString.len conn.connectordata.ResponseTopic > 0
  · simp only [h, if_true]
    cases w.Publish conn.connectordata.ResponseTopic (GoString.toBytes response)
    · exact ⟨true, rfl⟩
    · exact ⟨false, rfl⟩
  · simp only [h, if_false]
    exact ⟨true, rfl⟩

theorem publishes_errorHandler (conn : natsConnector) (w : World) (err : GoError) :
    publishes (errorHandler conn w err).events =
      [(conn.connectordata.ErrorTopic, GoString.toBytes err.Error)] := by
  rw [errorHandler_events]
  cases w.Publish conn.connectordata.ErrorTopic (GoString.toBytes err.Error) <;> rfl

theorem publishes_responseHandler (conn : natsConnector) (w : World) (response : GoString) :
    publishes (responseHandler conn w response).events =
      if GoString.len conn.connectordata.ResponseTopic > 0 then
        [(conn.connectordata.ResponseTopic, GoString.toBytes response)]
      else [] := by
  rw [responseHandler_events]
  by_cases h : GoString.len conn.connectordata.ResponseTopic > 0
  · simp only [h, if_true]
    cases w.Publish conn.connectordata.ResponseTopic (GoString.toBytes response) <;> rfl
  · simp only [h, if_false]
    rfl

/-! ## The subscription handler, case by case -/

theorem handler_events_of_request_error (conn : natsConnector) (w : World) (m : Msg)
    (err : GoError)
    (h : w.HandleHTTPRequest (GoString.ofBytes m.Data) (headers conn) conn.connectordata
      = .error err) :
    (subscriptionHandler conn w m).events =
      [.logInfo (GoString.ofBytes m.Data),
       .httpRequest (GoString.ofBytes m.Data) (headers conn) conn.connectordata] ++
      (errorHandler conn w err).events := by
  unfold subscriptionHandler
  simp only [h]
  simp only [bind, Run.andThen, emit, errorHandler_result]
  rfl

theorem handler_events_of_read_error (conn : natsConnector) (w : World) (m : Msg)
    (resp : Response) (body : ByteSlice) (err : GoError)
    (h : w.HandleHTTPRequest (GoString.ofBytes m.Data) (headers conn) conn.connectordata
      = .ok resp)
    (hr : ReadAll resp.Body = (body, some err)) :
    (subscriptionHandler conn w m).events =
      [.logInfo (GoString.ofBytes m.Data),
       .httpRequest (GoString.ofBytes m.Data) (headers conn) conn.connectordata,
       .readAll] ++
      (errorHandler conn w err).events ++ [.bodyClose] := by
  unfold subscriptionHandler
  simp only [h, hr]
  simp only [bind, Run.andThen, emit, errorHandler_result]
  simp

theorem handler_events_of_success (conn : natsConnector) (w : World) (m : Msg)
    (resp : Response) (body : ByteSlice)
    (h : w.HandleHTTPRequest (GoString.ofBytes m.Data) (headers conn) conn.connectordata
      = .ok resp)
    (hr : ReadAll resp.Body = (body, none)) :
    (subscriptionHandler conn w m).events =
      [.logInfo (GoString.ofBytes m.Data),
       .httpRequest (GoString.ofBytes m.Data) (headers conn) conn.connectordata,
       .readAll] ++
      (responseHandler conn w (GoString.ofBytes body)).events ++ [.bodyClose] := by
  obtain ⟨b, hb⟩ := responseHandler_result conn w (GoString.ofBytes body)
  unfold subscriptionHandler
  simp only [h, hr]
  simp only [bind, Run.andThen, emit, hb, pure, Run.ret]
  simp

theorem handler_result (conn : natsConnector) (w : World) (m : Msg) :
    (subscriptionHandler conn w m).result = .returned () := by
  unfold subscriptionHandler
  cases h : w.HandleHTTPRequest (GoString.ofBytes m.Data) (headers conn) conn.connectordata with
  | error err =>
    simp only [h, bind, Run.andThen, emit, errorHandler_result]
  | ok resp =>
    rcases hr : ReadAll resp.Body with ⟨body, _ | err⟩
    · obtain ⟨b, hb⟩ := responseHandler_result conn w (GoString.ofBytes body)
      simp only [h, hr, bind, Run.andThen, emit, hb, pure, Run.ret]
    · simp only [h, hr, bind, Run.andThen, emit, errorHandler_result]

theorem publishes_handler (conn : natsConnector) (w : World) (m : Msg) :
    publishes (subscriptionHandler conn w m).events =
      match forwardOutcome conn w m with
      | .error err => [(conn.connectordata.ErrorTopic, GoString.toBytes err.Error)]
      | .ok body =>
        if GoString.len conn.connectordata.ResponseTopic > 0 then
          [(conn.connectordata.ResponseTopic, body)]
        else [] := by
  unfold forwardOutcome
  cases h : w.HandleHTTPRequest (GoString.ofBytes m.Data) (headers conn) conn.connectordata with
  | error err =>
    rw [handler_events_of_request_error conn w m err h, publishes_append,
      publishes_errorHandler]
    rfl
  | ok resp =>
    rcases hr : ReadAll resp.Body with ⟨body, _ | err⟩
    · rw [handler_events_of_success conn w m resp body h hr, publishes_append,
        publishes_append, publishes_responseHandler]
      by_cases hl : GoString.len conn.connectordata.ResponseTopic > 0
      · simp [hl, hr, publishes, GoString.toBytes, GoString.ofBytes]
      · simp [hl, hr, publishes]
    · rw [handler_events_of_read_error conn w m resp body err h hr, publishes_append,
        publishes_append, publishes_errorHandler]
      simp [hr, publishes]

theorem httpRequests_errorHandler (conn : natsConnector) (w : World) (err : GoError) :
    httpRequests (errorHandler conn w err).events = [] := by
  rw [errorHandler_events]
  cases w.Publish conn.connectordata.ErrorTopic (GoString.toBytes err.Error) <;> rfl

theorem httpRequests_responseHandler (conn : natsConnector) (w : World) (response : GoString) :
    httpRequests (responseHandler conn w response).events = [] := by
  rw [responseHandler_events]
  by_cases h : GoString.len conn.connectordata.ResponseTopic > 0
  · simp only [h, if_true]
    cases w.Publish conn.connectordata.ResponseTopic (GoString.toBytes response) <;> rfl
  · simp only [h, if_false]
    rfl

theorem httpRequests_handler (conn : natsConnector) (w : World) (m : Msg) :
    httpRequests (subscriptionHandler conn w m).events =
      [(GoString.ofBytes m.Data, headers conn, conn.connectordata)] := by
  cases h : w.HandleHTTPRequest (GoString.ofBytes m.Data) (headers conn) conn.connectordata with
  | error err =>
    rw [handler_events_of_request_error conn w m err h, httpRequests_append,
      httpRequests_errorHandler]
    rfl
  | ok resp =>
    rcases hr : ReadAll resp.Body with ⟨body, _ | err⟩
    · rw [handler_events_of_success conn w m resp body h hr, httpRequests_append,
        httpRequests_append, httpRequests_responseHandler]
      rfl
    · rw [handler_events_of_read_error conn w m resp body err h hr, httpRequests_append,
        httpRequests_append, httpRequests_errorHandler]
      rfl

theorem handler_withStatus (conn : natsConnector) (w : World) (code : Int) (m : Msg) :
    subscriptionHandler conn (w.withStatus code) m = subscriptionHandler conn w m := by
  unfold subscriptionHandler
  cases h : w.HandleHTTPRequest (GoString.ofBytes m.Data) (headers conn) conn.connectordata with
  | error err =>
    simp only [World.withStatus, h]
    rfl
  | ok resp =>
    simp only [World.withStatus, h]
    rfl

/-! ## The claims about the handling of one message -/

/-- C1: for a configuration with non-empty topic, error topic and endpoint, the
handling of one message makes exactly one publish attempt, to the response topic,
when forwarding succeeds and the response topic is non-empty; exactly one, to the
error topic, when forwarding fails; none when forwarding succeeds and the response
topic is empty; and in every case at most one, so never one to each topic. -/
theorem one_publish_per_message (conn : natsConnector) (w : World) (m : Msg)
    (_hTopic : 0 < GoString.len conn.connectordata.Topic)
    (_hError : 0 < GoString.len conn.connectordata.ErrorTopic)
    (_hEndpoint : 0 < GoString.len conn.connectordata.HTTPEndpoint) :
    (∀ body, forwardOutcome conn w m = .ok body →
        0 < GoString.len conn.connectordata.ResponseTopic →
        ∃ payload, publishes (subscriptionHandler conn w m).events =
          [(conn.connectordata.ResponseTopic, payload)]) ∧
    (∀ err, forwardOutcome conn w m = .error err →
        ∃ payload, publishes (subscriptionHandler conn w m).events =
          [(conn.connectordata.ErrorTopic, payload)]) ∧
    (∀ body, forwardOutcome conn w m = .ok body →
        GoString.len conn.connectordata.ResponseTopic = 0 →
        publishes (subscriptionHandler conn w m).events = []) ∧
    (publishes (subscriptionHandler conn w m).events).length ≤ 1 := by
  rw [publishes_handler]
  refine ⟨?_, ?_, ?_, ?_⟩
  · intro body hf hlen
    rw [hf]
    exact ⟨body, by simp [hlen]⟩
  · intro err hf
    rw [hf]
    exact ⟨_, rfl⟩
  · intro body hf hlen
    rw [hf]
    simp [hlen]
  · cases forwardOutcome conn w m with
    | error err => simp
    | ok body =>
      by_cases hlen : GoString.len conn.connectordata.ResponseTopic > 0 <;> simp [hlen]

/-- The example configuration is valid; the message `hello` answered with `ack` gives
exactly one publish, to `acks`; the refused message gives exactly one publish, to
`errs`; and without a response topic the answered message gives none. -/
theorem one_publish_per_message_witness :
    (0 < GoString.len exampleConn.connectordata.Topic ∧
      0 < GoString.len exampleConn.connectordata.ErrorTopic ∧
      0 < GoString.len exampleConn.connectordata.HTTPEndpoint) ∧
    (∃ payload, publishes (subscriptionHandler exampleConn worldAck exampleMsg).events =
      [(GoString.lit "acks", payload)]) ∧
    (∃ payload, publishes (subscriptionHandler exampleConn worldRefused exampleMsg).events =
      [(GoString.lit "errs", payload)]) ∧
    publishes (subscriptionHandler exampleConnNoResponse worldAck exampleMsg).events = [] :=
  ⟨by decide,
    (one_publish_per_message exampleConn worldAck exampleMsg (by decide) (by decide)
      (by decide)).1 (GoString.lit "ack").bytes rfl (by decide),
    (one_publish_per_message exampleConn worldRefused exampleMsg (by decide) (by decide)
      (by decide)).2.1 _ rfl,
    (one_publish_per_message exampleConnNoResponse worldAck exampleMsg (by decide) (by decide)
      (by decide)).2.2.1 (GoString.lit "ack").bytes rfl (by decide)⟩

/-- C2: when forwarding succeeds with response body `body` and the response topic
is non-empty, the one publish of the message goes to the response topic and
carries exactly the bytes of `body`. -/
theorem response_payload_unmodified (conn : natsConnector) (w : World) (m : Msg)
    (resp : Response) (body : ByteSlice)
    (hreq : w.HandleHTTPRequest (GoString.ofBytes m.Data) (headers conn) conn.connectordata
      = .ok resp)
    (hbody : ReadAll resp.Body = (body, none))
    (hTopic : 0 < GoString.len conn.connectordata.ResponseTopic) :
    publishes (subscriptionHandler conn w m).events =
      [(conn.connectordata.ResponseTopic, body)] := by
  rw [publishes_handler]
  unfold forwardOutcome
  simp [hreq, hbody, hTopic]

/-- Body `ack` with response topic `acks` yields the one publish (`acks`, `ack`). -/
theorem response_payload_unmodified_witness :
    publishes (subscriptionHandler exampleConn worldAck exampleMsg).events =
      [(GoString.lit "acks", [0x61, 0x63, 0x6b])] :=
  response_payload_unmodified exampleConn worldAck exampleMsg
    ⟨200, ⟨(GoString.lit "ack").bytes, none⟩⟩ (GoString.lit "ack").bytes rfl rfl (by decide)

/-- C3: a forwarding failure `err`, be it the error returned by the HTTP helper or
the error of reading the response body, is published to the error topic as the
bytes of `err.Error()`, and that is the only publish of the message. -/
theorem error_payload (conn : natsConnector) (w : World) (m : Msg) :
    (∀ err, w.HandleHTTPRequest (GoString.ofBytes m.Data) (headers conn) conn.connectordata
        = .error err →
      publishes (subscriptionHandler conn w m).events =
        [(conn.connectordata.ErrorTopic, GoString.toBytes err.Error)]) ∧
    (∀ resp body err,
      w.HandleHTTPRequest (GoString.ofBytes m.Data) (headers conn) conn.connectordata
        = .ok resp →
      ReadAll resp.Body = (body, some err) →
      publishes (subscriptionHandler conn w m).events =
        [(conn.connectordata.ErrorTopic, GoString.toBytes err.Error)]) := by
  constructor
  · intro err hreq
    rw [publishes_handler]
    unfold forwardOutcome
    simp [hreq]
  · intro resp body err hreq hbody
    rw [publishes_handler]
    unfold forwardOutcome
    simp [hreq, hbody]

/-- A refused connection with error topic `errs` yields one publish to `errs` with
the text of the failure, and so does a failed read of the body. -/
theorem error_payload_witness :
    publishes (subscriptionHandler exampleConn worldRefused exampleMsgX).events =
      [(GoString.lit "errs",
        (GoString.lit "dial tcp 127.0.0.1:8080: connect: connection refused").bytes)] ∧
    publishes (subscriptionHandler exampleConn worldReadFails exampleMsgX).events =
      [(GoString.lit "errs", (GoString.lit "unexpected EOF").bytes)] :=
  ⟨(error_payload exampleConn worldRefused exampleMsgX).1 _ rfl,
    (error_payload exampleConn worldReadFails exampleMsgX).2 _ _ _ rfl rfl⟩

/-- C4: a failed publish is not escalated. When the publish of a response body to
the response topic fails, and when the publish of a forwarding failure to the
error topic fails, the failure is logged and nothing else is published: the
message has exactly one publish, and the handler returns. -/
theorem publish_failure_not_escalated (conn : natsConnector) (w : World) (m : Msg) :
    (∀ resp body perr,
      w.HandleHTTPRequest (GoString.ofBytes m.Data) (headers conn) conn.connectordata
        = .ok resp →
      ReadAll resp.Body = (body, none) →
      0 < GoString.len conn.connectordata.ResponseTopic →
      w.Publish conn.connectordata.ResponseTopic body = some perr →
      (subscriptionHandler conn w m).events =
        [.logInfo (GoString.ofBytes m.Data),
         .httpRequest (GoString.ofBytes m.Data) (headers conn) conn.connectordata,
         .readAll,
         .publish conn.connectordata.ResponseTopic body,
         .logError (GoString.lit "failed to publish response body from http request to topic"),
         .bodyClose] ∧
      publishes (subscriptionHandler conn w m).events =
        [(conn.connectordata.ResponseTopic, body)] ∧
      (subscriptionHandler conn w m).result = .returned ()) ∧
    (∀ err perr,
      w.HandleHTTPRequest (GoString.ofBytes m.Data) (headers conn) conn.connectordata
        = .error err →
      w.Publish conn.connectordata.ErrorTopic (GoString.toBytes err.Error) = some perr →
      (subscriptionHandler conn w m).events =
        [.logInfo (GoString.ofBytes m.Data),
         .httpRequest (GoString.ofBytes m.Data) (headers conn) conn.connectordata,
         .publish conn.connectordata.ErrorTopic (GoString.toBytes err.Error),
         .logError (GoString.lit "failed to publish message to error topic")] ∧
      publishes (subscriptionHandler conn w m).events =
        [(conn.connectordata.ErrorTopic, GoString.toBytes err.Error)] ∧
      (subscriptionHandler conn w m).result = .returned ()) ∧
    (∀ resp body err perr,
      w.HandleHTTPRequest (GoString.ofBytes m.Data) (headers conn) conn.connectordata
        = .ok resp →
      ReadAll resp.Body = (body, some err) →
      w.Publish conn.connectordata.ErrorTopic (GoString.toBytes err.Error) = some perr →
      (subscriptionHandler conn w m).events =
        [.logInfo (GoString.ofBytes m.Data),
         .httpRequest (GoString.ofBytes m.Data) (headers conn) conn.connectordata,
         .readAll,
         .publish conn.connectordata.ErrorTopic (GoString.toBytes err.Error),
         .logError (GoString.lit "failed to publish message to error topic"),
         .bodyClose] ∧
      publishes (subscriptionHandler conn w m).events =
        [(conn.connectordata.ErrorTopic, GoString.toBytes err.Error)] ∧
      (subscriptionHandler conn w m).result = .returned ()) := by
  refine ⟨?_, ?_, ?_⟩
  · intro resp body perr hreq hbody hlen hpub
    have hpub2 : w.Publish conn.connectordata.ResponseTopic
        (GoString.toBytes (GoString.ofBytes body)) = some perr := hpub
    have hev := handler_events_of_success conn w m resp body hreq hbody
    rw [responseHandler_events, if_pos hlen, hpub2] at hev
    refine ⟨?_, ?_, handler_result conn w m⟩
    · rw [hev]
      rfl
    · rw [hev]
      rfl
  · intro err perr hreq hpub
    have hev := handler_events_of_request_error conn w m err hreq
    rw [errorHandler_events, hpub] at hev
    refine ⟨?_, ?_, handler_result conn w m⟩
    · rw [hev]
      rfl
    · rw [hev]
      rfl
  · intro resp body err perr hreq hbody hpub
    have hev := handler_events_of_read_error conn w m resp body err hreq hbody
    rw [errorHandler_events, hpub] at hev
    refine ⟨?_, ?_, handler_result conn w m⟩
    · rw [hev]
      rfl
    · rw [hev]
      rfl

/-- With every publish failing, the message answered with `ack` has the one publish
to `acks`, the refused message the one publish to `errs`, and both handlers
return. -/
theorem publish_failure_not_escalated_witness :
    (publishes (subscriptionHandler exampleConn worldAckPublishFails exampleMsg).events =
        [(GoString.lit "acks", (GoString.lit "ack").bytes)] ∧
      (subscriptionHandler exampleConn worldAckPublishFails exampleMsg).result
        = .returned ()) ∧
    (publishes (subscriptionHandler exampleConn worldRefusedPublishFails exampleMsgX).events =
        [(GoString.lit "errs",
          (GoString.lit "dial tcp 127.0.0.1:8080: connect: connection refused").bytes)] ∧
      (subscriptionHandler exampleConn worldRefusedPublishFails exampleMsgX).result
        = .returned ()) :=
  ⟨((publish_failure_not_escalated exampleConn worldAckPublishFails exampleMsg).1
      _ _ _ rfl rfl (by decide) rfl).2,
    ((publish_failure_not_escalated exampleConn worldRefusedPublishFails exampleMsgX).2.1
      _ _ rfl rfl).2⟩

/-- C5: a response with any status code and a readable body `body` is handled as a
success: the publishes of the message are the one publish of `body` to the response
topic when that topic is non-empty and none otherwise, so no error is published;
and replacing the status code of the response by any other leaves the whole run
of the handler unchanged. -/
theorem status_code_not_inspected (conn : natsConnector) (w : World) (m : Msg)
    (resp : Response) (body : ByteSlice)
    (hreq : w.HandleHTTPRequest (GoString.ofBytes m.Data) (headers conn) conn.connectordata
      = .ok resp)
    (hbody : ReadAll resp.Body = (body, none)) :
    publishes (subscriptionHandler conn w m).events =
      (if 0 < GoString.len conn.connectordata.ResponseTopic then
        [(conn.connectordata.ResponseTopic, body)]
      else []) ∧
    ∀ code : Int,
      subscriptionHandler conn (w.withStatus code) m = subscriptionHandler conn w m := by
  constructor
  · rw [publishes_handler]
    unfold forwardOutcome
    simp [hreq, hbody]
  · intro code
    exact handler_withStatus conn w code m

/-- A 404 answer with body `not found` is published to `acks` like any other
answer, and the run is the same as with status 500. -/
theorem status_code_not_inspected_witness :
    publishes (subscriptionHandler exampleConn worldNotFound exampleMsg).events =
      [(GoString.lit "acks", (GoString.lit "not found").bytes)] ∧
    subscriptionHandler exampleConn (worldNotFound.withStatus 500) exampleMsg =
      subscriptionHandler exampleConn worldNotFound exampleMsg :=
  ⟨(status_code_not_inspected exampleConn worldNotFound exampleMsg
      ⟨404, ⟨(GoString.lit "not found").bytes, none⟩⟩ _ rfl rfl).1,
    (status_code_not_inspected exampleConn worldNotFound exampleMsg
      ⟨404, ⟨(GoString.lit "not found").bytes, none⟩⟩ _ rfl rfl).2 500⟩

/-- C8: for every connector and message, the HTTP helper is called once, with a
message whose bytes are the payload of the bus message, and with a header map
that has exactly the five names Topic, RespTopic, ErrorTopic, Content-Type and
Source-Name, each with the single value of the matching configuration field; the
header map is the same for every message. -/
theorem forward_request (conn : natsConnector) (w : World) (m : Msg) :
    (∃ msg hdr, httpRequests (subscriptionHandler conn w m).events
        = [(msg, hdr, conn.connectordata)] ∧
      GoString.toBytes msg = m.Data ∧
      Header.keys hdr =
        [GoString.lit "Topic", GoString.lit "RespTopic", GoString.lit "ErrorTopic",
         GoString.lit "Content-Type", GoString.lit "Source-Name"] ∧
      (Header.keys hdr).Nodup ∧
      Header.values hdr (GoString.lit "Topic") = [conn.connectordata.Topic] ∧
      Header.values hdr (GoString.lit "RespTopic") = [conn.connectordata.ResponseTopic] ∧
      Header.values hdr (GoString.lit "ErrorTopic") = [conn.connectordata.ErrorTopic] ∧
      Header.values hdr (GoString.lit "Content-Type") = [conn.connectordata.ContentType] ∧
      Header.values hdr (GoString.lit "Source-Name") = [conn.connectordata.SourceName]) ∧
    ∀ (w2 : World) (m2 : Msg),
      (httpRequests (subscriptionHandler conn w2 m2).events).map (fun r => r.2.1) =
        (httpRequests (subscriptionHandler conn w m).events).map (fun r => r.2.1) := by
  constructor
  · have hkeys : Header.keys (headers conn) =
        [GoString.lit "Topic", GoString.lit "RespTopic", GoString.lit "ErrorTopic",
         GoString.lit "Content-Type", GoString.lit "Source-Name"] := rfl
    refine ⟨GoString.ofBytes m.Data, headers conn, httpRequests_handler conn w m, rfl, hkeys,
      ?_, ?_, ?_, ?_, ?_, ?_⟩
    · rw [hkeys]
      decide
    all_goals rfl
  · intro w2 m2
    rw [httpRequests_handler, httpRequests_handler]
    rfl

/-! ## Subscription and startup -/

theorem consumeMessage_of_subscribe_error (conn : natsConnector)
    (Subscribe : GoString → Option GoError) (err : GoError)
    (h : Subscribe conn.connectordata.Topic = some err) :
    consumeMessage conn Subscribe =
      ⟨[.subscribe conn.connectordata.Topic,
        .logFatal (GoString.lit "error occurred while consuming message")],
       .exited (GoString.lit "error occurred while consuming message")⟩ := by
  unfold consumeMessage
  simp only [h]
  rfl

theorem consumeMessage_of_subscribe_ok (conn : natsConnector)
    (Subscribe : GoString → Option GoError)
    (h : Subscribe conn.connectordata.Topic = none) :
    consumeMessage conn Subscribe =
      ⟨[.subscribe conn.connectordata.Topic,
        .logInfo (GoString.lit "NATs consumer up and running!...")],
       .blocked⟩ := by
  unfold consumeMessage
  simp only [h]
  rfl

/-- C9: `consumeMessage` asks the bus for exactly one subscription, on the
configured topic. When the bus refuses it the process exits with a fatal log line
and the run loop is not reached; when the bus accepts it `consumeMessage` blocks:
it neither returns nor subscribes again. -/
theorem subscribe_once (conn : natsConnector) (Subscribe : GoString → Option GoError) :
    subscriptions (consumeMessage conn Subscribe).events = [conn.connectordata.Topic] ∧
    (∀ err, Subscribe conn.connectordata.Topic = some err →
      (consumeMessage conn Subscribe).result =
        .exited (GoString.lit "error occurred while consuming message") ∧
      (consumeMessage conn Subscribe).events =
        [.subscribe conn.connectordata.Topic,
         .logFatal (GoString.lit "error occurred while consuming message")]) ∧
    (Subscribe conn.connectordata.Topic = none →
      (consumeMessage conn Subscribe).result = .blocked ∧
      (consumeMessage conn Subscribe).events =
        [.subscribe conn.connectordata.Topic,
         .logInfo (GoString.lit "NATs consumer up and running!...")]) := by
  refine ⟨?_, ?_, ?_⟩
  · cases h : Subscribe conn.connectordata.Topic with
    | none => rw [consumeMessage_of_subscribe_ok conn Subscribe h]; rfl
    | some err => rw [consumeMessage_of_subscribe_error conn Subscribe err h]; rfl
  · intro err h
    rw [consumeMessage_of_subscribe_error conn Subscribe err h]
    exact ⟨rfl, rfl⟩
  · intro h
    rw [consumeMessage_of_subscribe_ok conn Subscribe h]
    exact ⟨rfl, rfl⟩

/-- A refused subscription ends the process after the one attempt; an accepted
one leaves `consumeMessage` blocked after the one attempt. -/
theorem subscribe_once_witness :
    ((consumeMessage exampleConn (fun _ => some ⟨GoString.lit "nats: permissions violation"⟩)).result
        = .exited (GoString.lit "error occurred while consuming message") ∧
      (consumeMessage exampleConn
          (fun _ => some ⟨GoString.lit "nats: permissions violation"⟩)).events =
        [.subscribe (GoString.lit "events"),
         .logFatal (GoString.lit "error occurred while consuming message")]) ∧
    ((consumeMessage exampleConn exampleSubscribe).result = .blocked ∧
      (consumeMessage exampleConn exampleSubscribe).events =
        [.subscribe (GoString.lit "events"),
         .logInfo (GoString.lit "NATs consumer up and running!...")]) :=
  ⟨(subscribe_once exampleConn _).2.1 _ rfl,
    (subscribe_once exampleConn exampleSubscribe).2.2 (by decide)⟩

theorem main_of_logger_error (e : Startup) (err : GoError) (h : e.NewProduction = some err) :
    main e =
      ⟨[.logFatal (GoString.append (GoString.lit "can\x27t initialize zap logger: ") err.Error)],
       .exited (GoString.append (GoString.lit "can\x27t initialize zap logger: ") err.Error)⟩ := by
  unfold main
  simp only [h]
  rfl

theorem main_of_unacked (e : Startup) (h : e.NewProduction = none)
    (hu : e.Getenv (GoString.lit "INCLUDE_UNACKED") = GoString.lit "true") :
    main e =
      ⟨[.logFatal (GoString.lit "only nats protocol host is supported")],
       .exited (GoString.lit "only nats protocol host is supported")⟩ := by
  unfold main
  simp only [h, hu]
  rfl

theorem main_of_empty_host (e : Startup) (h : e.NewProduction = none)
    (hu : e.Getenv (GoString.lit "INCLUDE_UNACKED") ≠ GoString.lit "true")
    (hh : e.Getenv (GoString.lit "HOST") = GoString.lit "") :
    main e =
      ⟨[.logFatal (GoString.lit "received empty host field")],
       .exited (GoString.lit "received empty host field")⟩ := by
  unfold main
  simp only [h, hu, hh, if_false, if_true]
  rfl

theorem main_of_connect_error (e : Startup) (err : GoError) (h : e.NewProduction = none)
    (hu : e.Getenv (GoString.lit "INCLUDE_UNACKED") ≠ GoString.lit "true")
    (hh : e.Getenv (GoString.lit "HOST") ≠ GoString.lit "")
    (hc : e.Connect (e.Getenv (GoString.lit "HOST")) = .error err) :
    main e =
      ⟨[.connect (e.Getenv (GoString.lit "HOST")),
        .logFatal (GoString.lit "failed to establish connection with NATS")],
       .exited (GoString.lit "failed to establish connection with NATS")⟩ := by
  unfold main
  simp only [h, hu, hh, hc, if_false]
  rfl

theorem main_of_connect_ok (e : Startup) (connection : Conn) (h : e.NewProduction = none)
    (hu : e.Getenv (GoString.lit "INCLUDE_UNACKED") ≠ GoString.lit "true")
    (hh : e.Getenv (GoString.lit "HOST") ≠ GoString.lit "")
    (hc : e.Connect (e.Getenv (GoString.lit "HOST")) = .ok connection) :
    main e =
      ⟨.connect (e.Getenv (GoString.lit "HOST")) ::
        (consumeMessage
          ⟨e.Getenv (GoString.lit "HOST"), e.ParseConnectorMetadata.1, connection,
            .production⟩ e.Subscribe).events,
       (consumeMessage
          ⟨e.Getenv (GoString.lit "HOST"), e.ParseConnectorMetadata.1, connection,
            .production⟩ e.Subscribe).result⟩ := by
  unfold main
  simp only [h, hu, hh, hc, if_false]
  cases hs : e.Subscribe e.ParseConnectorMetadata.1.Topic with
  | none =>
    rw [consumeMessage_of_subscribe_ok _ _ hs]
    rfl
  | some err =>
    rw [consumeMessage_of_subscribe_error _ _ err hs]
    rfl

theorem loggerFatal_ne_lit (err : GoError) (s : String)
    (h : (GoString.lit s).bytes.head? ≠ some 99) :
    (Result.exited
        (GoString.append (GoString.lit "can\x27t initialize zap logger: ") err.Error) :
          Result Unit)
      ≠ .exited (GoString.lit s) := by
  intro heq
  injection heq with heq
  apply h
  rw [← heq]
  rfl

theorem exited_ne (a b : GoString) (h : a ≠ b) :
    (Result.exited a : Result Unit) ≠ .exited b :=
  fun heq => h (Result.exited.inj heq)

/-- C7: with an empty `HOST`, or with `INCLUDE_UNACKED` equal to `true`, `main`
ends the process with a fatal log line before any connection to the bus and any
subscription is attempted (once the logger exists, the line is that of the
guard). In every other environment neither guard ends the process, and once the
logger exists `main` goes on to connect to the bus at `HOST`. -/
theorem startup_guards (e : Startup) :
    ((e.Getenv (GoString.lit "HOST") = GoString.lit "" ∨
        e.Getenv (GoString.lit "INCLUDE_UNACKED") = GoString.lit "true") →
      (∃ msg, (main e).result = .exited msg) ∧
      connections (main e).events = [] ∧
      subscriptions (main e).events = [] ∧
      (e.NewProduction = none →
        (main e).result =
          if e.Getenv (GoString.lit "INCLUDE_UNACKED") = GoString.lit "true" then
            .exited (GoString.lit "only nats protocol host is supported")
          else .exited (GoString.lit "received empty host field"))) ∧
    (e.Getenv (GoString.lit "HOST") ≠ GoString.lit "" →
      e.Getenv (GoString.lit "INCLUDE_UNACKED") ≠ GoString.lit "true" →
      (main e).result ≠ .exited (GoString.lit "only nats protocol host is supported") ∧
      (main e).result ≠ .exited (GoString.lit "received empty host field") ∧
      (e.NewProduction = none →
        connections (main e).events = [e.Getenv (GoString.lit "HOST")])) := by
  constructor
  · intro hguard
    cases hl : e.NewProduction with
    | some err =>
      rw [main_of_logger_error e err hl]
      exact ⟨⟨_, rfl⟩, rfl, rfl, fun h => by cases h⟩
    | none =>
      by_cases hu : e.Getenv (GoString.lit "INCLUDE_UNACKED") = GoString.lit "true"
      · rw [main_of_unacked e hl hu]
        exact ⟨⟨_, rfl⟩, rfl, rfl, fun _ => by rw [if_pos hu]⟩
      · have hh : e.Getenv (GoString.lit "HOST") = GoString.lit "" := by
          rcases hguard with hh | hu2
          · exact hh
          · exact absurd hu2 hu
        rw [main_of_empty_host e hl hu hh]
        exact ⟨⟨_, rfl⟩, rfl, rfl, fun _ => by rw [if_neg hu]⟩
  · intro hh hu
    cases hl : e.NewProduction with
    | some err =>
      rw [main_of_logger_error e err hl]
      exact ⟨loggerFatal_ne_lit err _ (by decide), loggerFatal_ne_lit err _ (by decide),
        fun h => by cases h⟩
    | none =>
      cases hc : e.Connect (e.Getenv (GoString.lit "HOST")) with
      | error err =>
        rw [main_of_connect_error e err hl hu hh hc]
        exact ⟨exited_ne _ _ (by decide), exited_ne _ _ (by decide), fun _ => rfl⟩
      | ok connection =>
        rw [main_of_connect_ok e connection hl hu hh hc]
        cases hs : e.Subscribe e.ParseConnectorMetadata.1.Topic with
        | none =>
          rw [consumeMessage_of_subscribe_ok _ _ hs]
          exact ⟨by simp, by simp, fun _ => rfl⟩
        | some err =>
          rw [consumeMessage_of_subscribe_error _ _ err hs]
          exact ⟨exited_ne _ _ (by decide), exited_ne _ _ (by decide), fun _ => rfl⟩

/-- Without `HOST`, and with `INCLUDE_UNACKED` set to `true`, the process exits on
the guard before any connection; with `HOST` set and `INCLUDE_UNACKED` unset the first thing `main` does to the bus is to
connect to it, once. -/
theorem startup_guards_witness :
    ((∃ msg, (main startupNoHost).result = .exited msg) ∧
      connections (main startupNoHost).events = [] ∧
      subscriptions (main startupNoHost).events = [] ∧
      (startupNoHost.NewProduction = none →
        (main startupNoHost).result =
          if startupNoHost.Getenv (GoString.lit "INCLUDE_UNACKED") = GoString.lit "true" then
            .exited (GoString.lit "only nats protocol host is supported")
          else .exited (GoString.lit "received empty host field"))) ∧
    ((∃ msg, (main startupUnacked).result = .exited msg) ∧
      connections (main startupUnacked).events = [] ∧
      subscriptions (main startupUnacked).events = [] ∧
      (startupUnacked.NewProduction = none →
        (main startupUnacked).result =
          if startupUnacked.Getenv (GoString.lit "INCLUDE_UNACKED") = GoString.lit "true" then
            .exited (GoString.lit "only nats protocol host is supported")
          else .exited (GoString.lit "received empty host field"))) ∧
    ((main startupOk).result ≠ .exited (GoString.lit "only nats protocol host is supported") ∧
      (main startupOk).result ≠ .exited (GoString.lit "received empty host field") ∧
      (startupOk.NewProduction = none →
        connections (main startupOk).events = [startupOk.Getenv (GoString.lit "HOST")])) :=
  ⟨(startup_guards startupNoHost).1 (Or.inl (by decide)),
    (startup_guards startupUnacked).1 (Or.inr (by decide)),
    (startup_guards startupOk).2 (by decide) (by decide)⟩

theorem main_withMetadataError (e : Startup) (err : Option GoError) :
    main (e.withMetadataError err) = main e := by
  rfl

/-- C6, as the code has it: `TOPIC` is not set and `common.ParseConnectorMetadata()`
reports an error, yet `main` connects to the bus and asks for a subscription on
the empty subject; the process ends only because the bus refuses that
subscription. -/
theorem metadata_error_reaches_bus :
    startupMetadataError.ParseConnectorMetadata.2 =
      some ⟨GoString.lit "environment variable not found: TOPIC"⟩ ∧
    (main startupMetadataError).events =
      [.connect (GoString.lit "nats://localhost:4222"),
       .subscribe (GoString.lit ""),
       .logFatal (GoString.lit "error occurred while consuming message")] ∧
    (main startupMetadataError).result =
      .exited (GoString.lit "error occurred while consuming message") := by
  decide

/-! ## The bus delivering a sequence of messages -/

theorem publishes_flatMap (ds : List (Msg × World)) (f : Msg × World → List Event) :
    publishes (ds.flatMap f) = ds.flatMap (fun d => publishes (f d)) := by
  induction ds with
  | nil => rfl
  | cons d ds ih => simp [List.flatMap_cons, publishes_append, ih]

theorem subscriptionHandlerStep_result (c : Captured) (w : World) (m : Msg) :
    (subscriptionHandlerStep c w m).result = .returned c := by
  unfold subscriptionHandlerStep
  cases h : w.HandleHTTPRequest (GoString.ofBytes m.Data) c.headers c.conn.connectordata with
  | error err =>
    simp only [h, bind, Run.andThen, emit, errorHandler_result, pure, Run.ret]
  | ok resp =>
    rcases hr : ReadAll resp.Body with ⟨body, _ | err⟩
    · obtain ⟨b, hb⟩ := responseHandler_result c.conn w (GoString.ofBytes body)
      simp only [h, hr, bind, Run.andThen, emit, hb, pure, Run.ret]
    · simp only [h, hr, bind, Run.andThen, emit, errorHandler_result, pure, Run.ret]

theorem subscriptionHandlerStep_events (conn : natsConnector) (w : World) (m : Msg) :
    (subscriptionHandlerStep (captured conn) w m).events =
      (subscriptionHandler conn w m).events := by
  unfold subscriptionHandlerStep subscriptionHandler captured
  cases h : w.HandleHTTPRequest (GoString.ofBytes m.Data) (headers conn) conn.connectordata with
  | error err =>
    simp only [h, bind, Run.andThen, emit, errorHandler_result, pure, Run.ret,
      List.append_nil]
  | ok resp =>
    rcases hr : ReadAll resp.Body with ⟨body, _ | err⟩
    · obtain ⟨b, hb⟩ := responseHandler_result conn w (GoString.ofBytes body)
      simp only [h, hr, bind, Run.andThen, emit, hb, pure, Run.ret, List.append_nil]
    · simp only [h, hr, bind, Run.andThen, emit, errorHandler_result, pure, Run.ret,
        List.append_nil]

theorem deliverAll_cons (c : Captured) (d : Msg × World) (ds : List (Msg × World)) :
    deliverAll c (d :: ds) =
      ⟨(subscriptionHandlerStep c d.2 d.1).events ++ (deliverAll c ds).events,
        (deliverAll c ds).result⟩ := by
  have h := subscriptionHandlerStep_result c d.2 d.1
  show Run.andThen (subscriptionHandlerStep c d.2 d.1) (fun c2 => deliverAll c2 ds) = _
  unfold Run.andThen
  rw [h]

theorem deliverAll_captured (conn : natsConnector) (ds : List (Msg × World)) :
    deliverAll (captured conn) ds =
      ⟨ds.flatMap (fun d => (subscriptionHandler conn d.2 d.1).events),
        .returned (captured conn)⟩ := by
  induction ds with
  | nil => rfl
  | cons d ds ih =>
    rw [deliverAll_cons, ih, subscriptionHandlerStep_events]
    simp [List.flatMap_cons]

/-- C10: messages are handled independently. A call of the handler returns, after
a forwarding or publish failure as after a success, and leaves the variables it
shares with the other calls (the connector with its configuration, the header
map) as they were. So when the bus delivers a sequence of messages, each with
its own forwarding and publish outcomes, the publishes are those of each message
handled alone with the same connector, in order; topic and payload of every
publish are fixed by the configuration and the outcome of its own message; a
further message adds exactly the publishes it has when handled alone, whatever
happened to the earlier ones; and the delivery is still going, on the unchanged
configuration, at the end. -/
theorem messages_independent (conn : natsConnector) (ds : List (Msg × World)) :
    publishes (deliverAll (captured conn) ds).events =
      ds.flatMap (fun d => publishes (subscriptionHandler conn d.2 d.1).events) ∧
    publishes (deliverAll (captured conn) ds).events =
      ds.flatMap (fun d =>
        match forwardOutcome conn d.2 d.1 with
        | .error err => [(conn.connectordata.ErrorTopic, GoString.toBytes err.Error)]
        | .ok body =>
          if GoString.len conn.connectordata.ResponseTopic > 0 then
            [(conn.connectordata.ResponseTopic, body)]
          else []) ∧
    (∀ d : Msg × World,
      publishes (deliverAll (captured conn) (ds ++ [d])).events =
        publishes (deliverAll (captured conn) ds).events ++
          publishes (subscriptionHandler conn d.2 d.1).events) ∧
    (deliverAll (captured conn) ds).result = .returned (captured conn) ∧
    (∀ (c : Captured) (w : World) (m : Msg),
      (subscriptionHandlerStep c w m).result = .returned c) := by
  refine ⟨?_, ?_, ?_, ?_, ?_⟩
  · rw [deliverAll_captured, publishes_flatMap]
  · rw [deliverAll_captured, publishes_flatMap]
    simp only [publishes_handler]
  · intro d
    rw [deliverAll_captured, deliverAll_captured, publishes_flatMap, publishes_flatMap]
    simp [List.flatMap_append]
  · rw [deliverAll_captured]
  · exact subscriptionHandlerStep_result

/-- After a message whose forwarding and whose error publish both fail, the next
message is published as if it had been handled alone, and the delivery goes on
with the same captured variables. -/
theorem messages_independent_witness :
    publishes (deliverAll (captured exampleConn) exampleDeliveries).events =
      [(GoString.lit "errs",
          (GoString.lit "dial tcp 127.0.0.1:8080: connect: connection refused").bytes),
       (GoString.lit "acks", (GoString.lit "ack").bytes)] ∧
    (deliverAll (captured exampleConn) exampleDeliveries).result =
      .returned (captured exampleConn) :=
  ⟨(messages_independent exampleConn exampleDeliveries).1.trans (by decide),
    (messages_independent exampleConn exampleDeliveries).2.2.2.1⟩

end NatsHttpConnector
